import Mathlib

/-!
Verification of the cross-exchange delta-neutral funding bot
(Extended / Pacifica), embedded shallowly from the Rust sources.

Conventions of the embedding:
* `f64` values are modelled as `ℚ` (the code performs only field
  arithmetic, `min`/`max`, comparisons and `floor` on them).
* `u64` values are modelled as `Nat`; `u64` subtraction is modelled by
  `u64_checked_sub` (Rust treats overflow as a program error, panicking
  under overflow checks), returning `none` on underflow.
* Every network call is a suspension point; its result is an input of
  the embedded function (a trace `Nat → Att` for a retried call, an
  `Except`/`Option` value for a single call).
* `Vec::sort_by` is a stable sort; it is modelled by the stable
  insertion sort `insertionSortDesc`, which computes the same output
  as any stable sort for the total preorder comparators used here.
-/

/-- Whether `pat` is a prefix of `s` (on character lists). -/
def isPrefixList : List Char → List Char → Bool
  | [], _ => true
  | _ :: _, [] => false
  | p :: ps, c :: cs => p == c && isPrefixList ps cs

/-- Whether `pat` occurs somewhere in `s` (on character lists).  Models
the Rust `str::contains` as used by `looks_like_rate_limit`. -/
def containsSub : List Char → List Char → Bool
  | pat, [] => pat.isEmpty
  | pat, c :: cs => isPrefixList pat (c :: cs) || containsSub pat cs

/-- Substring test on strings, via their character lists. -/
def strContainsSub (s pat : String) : Bool :=
  containsSub pat.data s.data

/-! ## trading.rs: constants and retry helpers -/

def ORDER_MAX_ATTEMPTS : Nat := 5

def ORDER_BASE_BACKOFF_MS : Nat := 1000

def RATE_LIMIT_BACKOFF_MS : Nat := 3000

def BACKOFF_MAX_EXPONENT : Nat := 6

/-- trading.rs `looks_like_rate_limit`: the error text, lower-cased
(character-wise, which agrees with Rust `to_lowercase` on the ASCII
error messages involved), mentions "429", "too many requests" or
"rate limit". -/
def looks_like_rate_limit (error_msg : String) : Bool :=
  let msg := error_msg.data.map Char.toLower
  containsSub "429".data msg || containsSub "too many requests".data msg ||
    containsSub "rate limit".data msg

/-- trading.rs `backoff_delay_ms`: linear `3000 * attempt` when rate
limited, otherwise `1000 * 2 ^ (attempt - 1)` with the exponent capped
at 6 (`saturating_sub` is `Nat` subtraction). -/
def backoff_delay_ms (attempt : Nat) (rate_limited : Bool) : Nat :=
  if rate_limited then
    RATE_LIMIT_BACKOFF_MS * attempt
  else
    ORDER_BASE_BACKOFF_MS * 2 ^ (min (attempt - 1) BACKOFF_MAX_EXPONENT)

/-! ## trading.rs: position sizing -/

/-- trading.rs `calculate_position_size`, step for step: 95% of the
smaller free collateral, capped by `max_position_size_usd`, converted
to base size at `current_price` and rounded down to the coarser lot. -/
def calculate_position_size (extended_free_collateral pacifica_free_collateral
    extended_lot_size pacifica_lot_size current_price max_position_size_usd : ℚ) : ℚ :=
  let min_capital := min extended_free_collateral pacifica_free_collateral
  let available_notional := min_capital * (95 / 100)
  let target_notional := min available_notional max_position_size_usd
  let base_size := target_notional / current_price
  let coarser_lot_size := max extended_lot_size pacifica_lot_size
  let rounded_size := (⌊base_size / coarser_lot_size⌋ : ℚ) * coarser_lot_size
  rounded_size

/-- The sizing formula exactly as the specification words it, for
comparison with the implementation. -/
def position_size_spec (free_a free_b lot_a lot_b price cap : ℚ) : ℚ :=
  (⌊min (min free_a free_b * (95 / 100)) cap / price / max lot_a lot_b⌋ : ℚ) *
    max lot_a lot_b

/-- bot.rs `open_best_opportunity`, the size guard: a non-positive
computed size aborts the open with the insufficient-capital error. -/
def open_size_check (position_size : ℚ) : Except String Unit :=
  if position_size ≤ 0 then
    Except.error "Insufficient capital to open position"
  else
    Except.ok ()

/-! ## trading.rs: the delta-neutral executor

An order-placement attempt either succeeds or fails with an error
message; the trace of results of a retried call is a function from the
attempt number (starting at 1) to the result. -/

/-- Result of one order-placement attempt. -/
inductive Att where
  | ok
  | err (msg : String)
deriving DecidableEq

/-- types.rs `OrderSide`. -/
inductive OrderSide where
  | Buy
  | Sell
deriving DecidableEq

/-- The opposite of a side (how a position is closed). -/
def OrderSide.opposite : OrderSide → OrderSide
  | OrderSide.Buy => OrderSide.Sell
  | OrderSide.Sell => OrderSide.Buy

/-- The arguments the executor passes to Extended
`place_market_order`: market, side, notional, reduce-only flag and
desired base size. -/
structure ExtOrderRequest where
  market : String
  side : OrderSide
  notional_usd : ℚ
  reduce_only : Bool
  size_base : ℚ
deriving DecidableEq

/-- The Extended opening order of `open_delta_neutral_position`
(trading.rs lines 170-184): buy when long on Extended,
`reduce_only = false`. -/
def extended_open_request (extended_market_symbol : String) (long_on_extended : Bool)
    (notional_usd position_size_base : ℚ) : ExtOrderRequest :=
  { market := extended_market_symbol
    side := if long_on_extended then OrderSide.Buy else OrderSide.Sell
    notional_usd := notional_usd
    reduce_only := false
    size_base := position_size_base }

/-- The Extended rollback order of `open_delta_neutral_position`
(trading.rs lines 274-290): the side opposite the opening order,
`reduce_only = true`, same notional and base size. -/
def rollback_request (extended_market_symbol : String) (long_on_extended : Bool)
    (notional_usd position_size_base : ℚ) : ExtOrderRequest :=
  { market := extended_market_symbol
    side := if long_on_extended then OrderSide.Sell else OrderSide.Buy
    notional_usd := notional_usd
    reduce_only := true
    size_base := position_size_base }

/-- The bounded retry loop shared by the Extended leg (trading.rs
lines 174-213) and the Pacifica leg (lines 230-264): run attempts
starting at `attempt`, succeed with the successful attempt number,
give up with the last error once `attempt ≥ ORDER_MAX_ATTEMPTS`,
otherwise sleep `backoff_delay_ms` and retry.  The second component
collects the slept delays; the fuel is `ORDER_MAX_ATTEMPTS` at the
initial call, so the sentinel first branch is never reached. -/
def legGo (res : Nat → Att) : Nat → Nat → Except String Nat × List Nat
  | _, 0 => (Except.error "", [])
  | attempt, fuel + 1 =>
    match res attempt with
    | Att.ok => (Except.ok attempt, [])
    | Att.err e =>
      let rate_limited := looks_like_rate_limit e
      if ORDER_MAX_ATTEMPTS ≤ attempt then
        (Except.error e, [])
      else
        let d := backoff_delay_ms attempt rate_limited
        let r := legGo res (attempt + 1) fuel
        (r.1, d :: r.2)

/-- trading.rs line 299: the recoverable error message after a
successful rollback. -/
def rollback_ok_message (err_msg : String) : String :=
  "Pacifica order failed. Extended position successfully rolled back (closed). Original error: "
    ++ err_msg

/-- trading.rs line 308: the non-recoverable error message after an
exhausted rollback; it names the possibly open Extended leg. -/
def rollback_failed_message (err_msg rollback_err : String) : String :=
  "Pacifica order failed AND rollback failed. CRITICAL: Check Extended position manually! Original error: "
    ++ err_msg ++ ". Rollback error: " ++ rollback_err

/-- The rollback loop of `open_delta_neutral_position` (trading.rs
lines 278-325).  An acknowledged rollback returns the recoverable
error; a failure aborts with the non-recoverable error only when it is
not rate limited and `attempt ≥ ORDER_MAX_ATTEMPTS` - rate-limited
failures never count towards the cap, so the loop is unbounded and is
run on fuel (`none` = still retrying when the fuel ran out).  The
second component collects the slept delays. -/
def rollbackLoop (res : Nat → Att) (err_msg : String) :
    Nat → Nat → Option ((String × Bool) × List Nat)
  | _, 0 => none
  | attempt, fuel + 1 =>
    match res attempt with
    | Att.ok => some ((rollback_ok_message err_msg, true), [])
    | Att.err e =>
      let rate_limited := looks_like_rate_limit e
      if rate_limited = false ∧ ORDER_MAX_ATTEMPTS ≤ attempt then
        some ((rollback_failed_message err_msg e, false), [])
      else
        let d := backoff_delay_ms attempt rate_limited
        match rollbackLoop res err_msg (attempt + 1) fuel with
        | some (r, ds) => some (r, d :: ds)
        | none => none

/-- The rollback loop has not stopped before attempt `n`: every
earlier attempt failed, and the failure did not meet the give-up
condition (it was rate limited, or the attempt number was still below
`ORDER_MAX_ATTEMPTS`). -/
def rollbackReaches (res : Nat → Att) (n : Nat) : Prop :=
  ∀ j, 1 ≤ j → j < n → ∃ m, res j = Att.err m ∧
    (looks_like_rate_limit m = true ∨ j < ORDER_MAX_ATTEMPTS)

/-- types.rs `Position` (Extended), restricted to the field the
embedded code reads: the market name. -/
structure Position where
  market : String
deriving DecidableEq

/-- pacifica/types.rs `PacificaPosition`, restricted to the field the
embedded code reads: the symbol. -/
structure PacificaPosition where
  symbol : String
deriving DecidableEq

/-- trading.rs `DeltaNeutralPosition`: both legs independently
optional, opened-at epoch seconds, target notional. -/
structure DeltaNeutralPosition where
  symbol : String
  extended_position : Option Position
  pacifica_position : Option PacificaPosition
  opened_at : Nat
  target_notional_usd : ℚ
deriving DecidableEq

/-- The environment of one `open_delta_neutral_position` call: the
traces of the three retried order placements, the results of the two
position-snapshot fetches, and the clock at the snapshot step. -/
structure OpenEnv where
  extRes : Nat → Att
  pacRes : Nat → Att
  rbRes : Nat → Att
  extPositions : Except String (List Position)
  pacPositions : Except String (List PacificaPosition)
  now : Nat

/-- Result of `open_delta_neutral_position`: success with the built
position, a `TradingError` with its recoverable flag, or a
non-`TradingError` error propagated by `?` from the snapshot step. -/
inductive OpenResult where
  | ok (pos : DeltaNeutralPosition)
  | fail (msg : String) (recoverable : Bool)
  | errOther (msg : String)
deriving DecidableEq

/-- trading.rs `open_delta_neutral_position` (lines 140-355): reject a
non-positive size; place the Extended leg with bounded retry; place
the Pacifica leg with bounded retry; on Pacifica exhaustion run the
rollback loop; on success snapshot the positions on both venues (each leg is
the first list entry whose market/symbol matches, hence optional) with
`opened_at = now`.  `none` means the rollback loop was still retrying
when `rollback_fuel` ran out. -/
def open_delta_neutral_position (symbol : String) (long_on_extended : Bool)
    (position_size_base current_price : ℚ)
    (extended_market_symbol pacifica_market_symbol : String)
    (env : OpenEnv) (rollback_fuel : Nat) : Option OpenResult :=
  if position_size_base ≤ 0 then
    some (OpenResult.fail "Invalid position size" false)
  else
    let notional_usd := position_size_base * current_price
    match (legGo env.extRes 1 ORDER_MAX_ATTEMPTS).1 with
    | Except.error e =>
      some (OpenResult.fail
        ("Extended order failed after " ++ toString ORDER_MAX_ATTEMPTS ++ " attempts: " ++ e)
        (looks_like_rate_limit e))
    | Except.ok _ =>
      match (legGo env.pacRes 1 ORDER_MAX_ATTEMPTS).1 with
      | Except.error e =>
        (rollbackLoop env.rbRes e 1 rollback_fuel).map fun r => OpenResult.fail r.1.1 r.1.2
      | Except.ok _ =>
        match env.extPositions with
        | Except.error e => some (OpenResult.errOther e)
        | Except.ok ext_list =>
          match env.pacPositions with
          | Except.error e => some (OpenResult.errOther e)
          | Except.ok pac_list =>
            some (OpenResult.ok
              { symbol := symbol
                extended_position := ext_list.find? fun p => p.market == extended_market_symbol
                pacifica_position := pac_list.find? fun p => p.symbol == pacifica_market_symbol
                opened_at := env.now
                target_notional_usd := notional_usd })

/-- Environment of the C1 counterexample: Extended leg acknowledged
immediately, every Pacifica attempt fails with a transport error, and
the first five rollback attempts all fail rate limited before the
sixth is acknowledged. -/
def cexEnv : OpenEnv :=
  { extRes := fun _ => Att.ok
    pacRes := fun _ => Att.err "connection reset"
    rbRes := fun i => if i ≤ 5 then Att.err "429" else Att.ok
    extPositions := Except.ok []
    pacPositions := Except.ok []
    now := 0 }

/-- Environment of the C1 witness: Extended leg acknowledged, Pacifica
always failing, rollback acknowledged on its first attempt. -/
def wEnvC1 : OpenEnv :=
  { extRes := fun _ => Att.ok
    pacRes := fun _ => Att.err "pac down"
    rbRes := fun _ => Att.ok
    extPositions := Except.ok []
    pacPositions := Except.ok []
    now := 0 }

/-! ## bot.rs: state store and orchestrator state -/

/-- bot.rs `BotState`. -/
structure BotState where
  current_position : Option DeltaNeutralPosition
  last_rotation_time : Option Nat
  total_rotations : Nat
deriving DecidableEq

/-- bot.rs `BotState::new`. -/
def BotState.new : BotState :=
  { current_position := none, last_rotation_time := none, total_rotations := 0 }

/-- Observable condition of a state file: absent, present but not
parseable as a `BotState`, or present holding a valid `BotState`. -/
inductive FileState where
  | absent
  | corrupt
  | valid (state : BotState)
deriving DecidableEq

/-- bot.rs `BotState::load_from_file` (lines 44-82) as a function of
the primary file and its `.bak` sibling.  The result carries the
loaded state and whether a fresh empty state was initialized (and
written).  If the primary parses, it wins; if it exists but fails to
parse, a parsing backup is returned, a corrupt backup propagates the
parse error by `?` (modelled as a fixed error string) and an absent
backup leads to a fresh state; an absent primary always leads to a
fresh state, the backup is not consulted. -/
def BotState.load_from_file (primary backup : FileState) : Except String (BotState × Bool) :=
  match primary with
  | FileState.valid s => Except.ok (s, false)
  | FileState.corrupt =>
    match backup with
    | FileState.valid b => Except.ok (b, false)
    | FileState.corrupt => Except.error "failed to parse backup state file"
    | FileState.absent => Except.ok (BotState.new, true)
  | FileState.absent => Except.ok (BotState.new, true)

/-- bot.rs `u64` subtraction `now - opened_at`: overflow is a program
error in Rust (a panic under overflow checks), modelled as `none`. -/
def u64_checked_sub (a b : Nat) : Option Nat :=
  if b ≤ a then some (a - b) else none

/-- bot.rs `BotState::should_rotate` (lines 110-121): with an active
position, whether `(now - opened_at) / 3600 ≥ hold_time_hours` (`u64`
division truncates); `none` when the subtraction underflows. -/
def BotState.should_rotate (st : BotState) (now hold_time_hours : Nat) : Option Bool :=
  match st.current_position with
  | some pos =>
    match u64_checked_sub now pos.opened_at with
    | some elapsed => some (decide (hold_time_hours ≤ elapsed / 3600))
    | none => none
  | none => some false

/-- bot.rs `BotState::hours_until_rotation` (lines 124-136): the hold
time minus the elapsed fractional hours, clamped at zero; inner `none`
= no position, outer `none` = the subtraction underflowed. -/
def BotState.hours_until_rotation (st : BotState) (now hold_time_hours : Nat) :
    Option (Option ℚ) :=
  match st.current_position with
  | some pos =>
    match u64_checked_sub now pos.opened_at with
    | some elapsed =>
      let elapsed_hours : ℚ := (elapsed : ℚ) / 3600
      let remaining : ℚ := (hold_time_hours : ℚ) - elapsed_hours
      some (some (max remaining 0))
    | none => none
  | none => some none

/-- bot.rs `FundingBot::reconcile_state` (lines 356-403) as a function
of the saved state and the two live-position fetch results (Extended
`get_positions(Some(symbol-USD))`, Pacifica `get_position(symbol)`).
The first component is the propagated error, if any; the second is
the resulting state, unchanged whenever an error is returned. -/
def reconcile_state (st : BotState) (extRes : Except String (List Position))
    (pacRes : Except String (Option PacificaPosition)) : Option String × BotState :=
  match st.current_position with
  | none => (none, st)
  | some saved_pos =>
    let extended_market := saved_pos.symbol ++ "-USD"
    match extRes with
    | Except.error e => (some e, st)
    | Except.ok live_ext_list =>
      let live_ext := live_ext_list.find? fun p => p.market == extended_market
      match pacRes with
      | Except.error e => (some e, st)
      | Except.ok live_pac =>
        if live_ext.isNone && live_pac.isNone then
          (none, { st with current_position := none })
        else
          let updated := { saved_pos with
            extended_position := live_ext
            pacifica_position := live_pac }
          (none, { st with current_position := some updated })

/-- bot.rs `open_best_opportunity`, state update after a successful
executor open (lines 627-634): store the position, stamp the rotation
time and bump the rotation counter. -/
def open_best_persist (st : BotState) (pos : DeltaNeutralPosition) (now : Nat) : BotState :=
  { st with
    current_position := some pos
    last_rotation_time := some now
    total_rotations := st.total_rotations + 1 }

/-! ## opportunity.rs: opportunities, filters and ranking -/

/-- opportunity.rs `FilterConfig`. -/
structure FilterConfig where
  min_combined_volume_usd : ℚ
  max_intra_exchange_spread_pct : ℚ
  max_cross_exchange_spread_pct : ℚ
  min_net_apr_pct : ℚ
deriving DecidableEq

/-- opportunity.rs `Opportunity`. -/
structure Opportunity where
  symbol : String
  extended_spread_pct : ℚ
  pacifica_spread_pct : ℚ
  cross_spread_pct : ℚ
  extended_funding_rate_apr : ℚ
  pacifica_funding_rate_apr : ℚ
  total_volume_24h : ℚ
  extended_volume_24h : ℚ
  pacifica_volume_24h : ℚ
  best_direction : String
  best_net_apr : ℚ
deriving DecidableEq

/-- opportunity.rs `FilterResult`. -/
inductive FilterResult where
  | Passed
  | FailedVolume
  | FailedIntraSpread
  | FailedCrossSpread
  | FailedApr
deriving DecidableEq

/-- opportunity.rs `Opportunity::passes_filters` (lines 301-307): one
conjunction of the five threshold comparisons. -/
def Opportunity.passes_filters (o : Opportunity) (config : FilterConfig) : Bool :=
  decide (o.extended_spread_pct ≤ config.max_intra_exchange_spread_pct) &&
    decide (o.pacifica_spread_pct ≤ config.max_intra_exchange_spread_pct) &&
    decide (o.cross_spread_pct ≤ config.max_cross_exchange_spread_pct) &&
    decide (o.total_volume_24h ≥ config.min_combined_volume_usd) &&
    decide (o.best_net_apr ≥ config.min_net_apr_pct)

/-- opportunity.rs `Opportunity::check_filters` (lines 309-324): the
staged early-return classification in the fixed order volume,
intra-spread, cross-spread, APR. -/
def Opportunity.check_filters (o : Opportunity) (config : FilterConfig) : FilterResult :=
  if o.total_volume_24h < config.min_combined_volume_usd then
    FilterResult.FailedVolume
  else if o.extended_spread_pct > config.max_intra_exchange_spread_pct ∨
      o.pacifica_spread_pct > config.max_intra_exchange_spread_pct then
    FilterResult.FailedIntraSpread
  else if o.cross_spread_pct > config.max_cross_exchange_spread_pct then
    FilterResult.FailedCrossSpread
  else if o.best_net_apr < config.min_net_apr_pct then
    FilterResult.FailedApr
  else
    FilterResult.Passed

/-- opportunity.rs `OpportunityCandidate`. -/
structure OpportunityCandidate where
  opportunity : Opportunity
  filter_result : FilterResult
deriving DecidableEq

/-- opportunity.rs `VolumeData`. -/
structure VolumeData where
  symbol : String
  extended_volume : ℚ
  pacifica_volume : ℚ
  total_volume : ℚ
deriving DecidableEq

/-- Top of an orderbook as consumed by `fetch_opportunity_data`. -/
structure BookTop where
  bid : ℚ
  ask : ℚ
deriving DecidableEq

/-- opportunity.rs `fetch_opportunity_data` (lines 638-735) as a
function of the fetched inputs: the two orderbook tops (`none` when
the fetch failed or a side was empty, making the symbol be dropped),
and the two fetched funding rates, given as the `rate_percentage`
field of the respective funding-rate value (`none` when the fetch
failed, in which case the code uses APR 0).  Extended annualizes
`rate_percentage` by `* 3 * 365`; Pacifica by `* 24 * 365`. -/
def fetch_opportunity_data (symbol : String) (vol_data : VolumeData)
    (ext_book pac_book : Option BookTop) (ext_funding pac_funding : Option ℚ) :
    Option Opportunity :=
  match ext_book with
  | none => none
  | some eb =>
    match pac_book with
    | none => none
    | some pb =>
      let ext_mid := (eb.bid + eb.ask) / 2
      let ext_spread := if 0 < ext_mid then ((eb.ask - eb.bid) / ext_mid) * 100 else 999
      let pac_mid := (pb.bid + pb.ask) / 2
      let pac_spread := if 0 < pac_mid then ((pb.ask - pb.bid) / pac_mid) * 100 else 999
      if ext_mid = 0 ∨ pac_mid = 0 then none
      else
        let cross_spread := (|pac_mid - ext_mid| / ext_mid) * 100
        let ext_funding_apr := match ext_funding with
          | some r => r * 3 * 365
          | none => 0
        let pac_funding_apr := match pac_funding with
          | some r => r * 24 * 365
          | none => 0
        let net_apr_long_ext := -ext_funding_apr + pac_funding_apr
        let net_apr_long_pac := -pac_funding_apr + ext_funding_apr
        let best := if net_apr_long_pac < net_apr_long_ext then
            ("Long Extended / Short Pacifica", net_apr_long_ext)
          else
            ("Long Pacifica / Short Extended", net_apr_long_pac)
        some { symbol := symbol
               extended_spread_pct := ext_spread
               pacifica_spread_pct := pac_spread
               cross_spread_pct := cross_spread
               extended_funding_rate_apr := ext_funding_apr
               pacifica_funding_rate_apr := pac_funding_apr
               total_volume_24h := vol_data.total_volume
               extended_volume_24h := vol_data.extended_volume
               pacifica_volume_24h := vol_data.pacifica_volume
               best_direction := best.1
               best_net_apr := best.2 }

/-- pacifica/types.rs lines 420-421,
`PacificaFundingRate::from_market_info`: the `rate_percentage` field
is the fetched decimal funding rate times 100. -/
def pacifica_rate_pct (funding_rate_raw : ℚ) : ℚ :=
  funding_rate_raw * 100

/-- Modelled from the spec: the Extended client (rest.rs / types.rs,
not under src/) returns a `FundingRateInfo` whose `rate_percentage`
field expresses the fetched decimal per-interval rate as a percentage,
raw times 100 - the unit convention the spec states (the venue returns
"a decimal hourly or per-interval rate") and the one the in-repo
Pacifica counterpart implements at pacifica/types.rs:420; the examples
display this field under a percent header. -/
def extended_rate_pct (funding_rate_raw : ℚ) : ℚ :=
  funding_rate_raw * 100

/-! ## opportunity.rs: the scan ordering

`Vec::sort_by` is stable; both sorts below are therefore modelled by
the stable insertion sort on a descending rational key. -/

/-- Insert `x` into a descending-by-`key` sorted list, before the
first element whose key is not larger - the insertion point a stable
descending sort gives an element arriving after the listed ones. -/
def orderedInsertDesc {A : Type} (key : A → ℚ) (x : A) : List A → List A
  | [] => [x]
  | b :: l => if key b ≤ key x then x :: b :: l else b :: orderedInsertDesc key x l

/-- Stable insertion sort, descending by `key`: computes the same
output as the stable Rust `sort_by` under a descending comparison of
`key`, since any two stable sorts agree on a total preorder. -/
def insertionSortDesc {A : Type} (key : A → ℚ) : List A → List A
  | [] => []
  | b :: l => orderedInsertDesc key b (insertionSortDesc key l)

/-- opportunity.rs `fetch_volumes` line 431: volumes (hence the
candidate list built in that order) sorted by total volume
descending. -/
def fetch_volumes_order (cands : List OpportunityCandidate) : List OpportunityCandidate :=
  insertionSortDesc (fun c => c.opportunity.total_volume_24h) cands

/-- opportunity.rs `find_opportunities` lines 478-482: candidates
sorted by net APR descending (stable, so ties keep their order). -/
def find_opportunities_order (cands : List OpportunityCandidate) : List OpportunityCandidate :=
  insertionSortDesc (fun c => c.opportunity.best_net_apr) cands

/-- opportunity.rs `scan` lines 515-519: the passing opportunities, in
candidate order. -/
def scan_passed (cands : List OpportunityCandidate) : List Opportunity :=
  (cands.filter fun c => c.filter_result == FilterResult.Passed).map
    fun c => c.opportunity

/-- Lexicographic ordering produced by a stable descending sort on
`key` of a list previously ordered by `s`. -/
def keyLex {A : Type} (key : A → ℚ) (s : A → A → Prop) (a b : A) : Prop :=
  key b < key a ∨ (key a = key b ∧ s a b)

/-- The ranking the specification asserts: net APR descending, ties
broken by total 24h volume descending. -/
def rank_order (a b : Opportunity) : Prop :=
  b.best_net_apr < a.best_net_apr ∨
    (a.best_net_apr = b.best_net_apr ∧ b.total_volume_24h ≤ a.total_volume_24h)


/-- A concrete all-passing candidate for the ranking scenario. -/
def mkScanCand (sym : String) (apr vol : ℚ) : OpportunityCandidate :=
  { opportunity :=
      { symbol := sym
        extended_spread_pct := 0
        pacifica_spread_pct := 0
        cross_spread_pct := 0
        extended_funding_rate_apr := 0
        pacifica_funding_rate_apr := apr
        total_volume_24h := vol
        extended_volume_24h := vol
        pacifica_volume_24h := 0
        best_direction := "Long Extended / Short Pacifica"
        best_net_apr := apr }
    filter_result := FilterResult.Passed }

/-- Scenario candidate S1: net APR 30, volume 1e7. -/
def candS1 : OpportunityCandidate := mkScanCand "S1" 30 10000000

/-- Scenario candidate S2: net APR 30, volume 2e7. -/
def candS2 : OpportunityCandidate := mkScanCand "S2" 30 20000000

/-- Scenario candidate S3: net APR 45, volume 5e6. -/
def candS3 : OpportunityCandidate := mkScanCand "S3" 45 5000000


/-- Environment of the C5 counterexample: every placement succeeds but
both snapshot fetches return empty lists. -/
def cexEnvC5 : OpenEnv :=
  { extRes := fun _ => Att.ok
    pacRes := fun _ => Att.ok
    rbRes := fun _ => Att.ok
    extPositions := Except.ok []
    pacPositions := Except.ok []
    now := 100 }

/-- Environment of the C5 witness: every placement succeeds and both
snapshots report the traded market. -/
def wEnvC5 : OpenEnv :=
  { extRes := fun _ => Att.ok
    pacRes := fun _ => Att.ok
    rbRes := fun _ => Att.ok
    extPositions := Except.ok [{ market := "SOL-USD" }]
    pacPositions := Except.ok [{ symbol := "SOL" }]
    now := 50 }

/-- The position the C5 witness environment produces. -/
def posW : DeltaNeutralPosition :=
  { symbol := "SOL"
    extended_position := some { market := "SOL-USD" }
    pacifica_position := some { symbol := "SOL" }
    opened_at := 50
    target_notional_usd := 2 * 10 }


example : calculate_position_size 10000 10000 (1/1000) (1/100) 50000 10000 = 19/100 := by
  norm_num [calculate_position_size]

example : calculate_position_size 100 100 (1/100) (1/100) 50000 1000 = 0 := by
  norm_num [calculate_position_size]

lemma rollbackLoop_ack_aux (res : Nat → Att) (e : String) (n : Nat)
    (hok : res n = Att.ok) (hpre : rollbackReaches res n) :
    ∀ fuel k, 1 ≤ k → k ≤ n → n < k + fuel →
      ∃ ds, rollbackLoop res e k fuel = some ((rollback_ok_message e, true), ds) := by
  intro fuel
  induction fuel with
  | zero =>
    intro k _ hkn hlt
    omega
  | succ fuel ih =>
    intro k hk1 hkn hlt
    rcases eq_or_lt_of_le hkn with rfl | hklt
    · exact ⟨[], by simp [rollbackLoop, hok]⟩
    · obtain ⟨m, hm, hcond⟩ := hpre k hk1 hklt
      have hstop : ¬ (looks_like_rate_limit m = false ∧ ORDER_MAX_ATTEMPTS ≤ k) := by
        rcases hcond with h | h
        · simp [h]
        · omega
      obtain ⟨ds, hds⟩ := ih (k + 1) (by omega) (by omega) (by omega)
      refine ⟨backoff_delay_ms k (looks_like_rate_limit m) :: ds, ?_⟩
      simp only [rollbackLoop, hm, if_neg hstop, hds]

lemma rollbackLoop_giveup_aux (res : Nat → Att) (e : String) (n : Nat) (m : String)
    (herr : res n = Att.err m) (hrl : looks_like_rate_limit m = false)
    (hn : ORDER_MAX_ATTEMPTS ≤ n) (hpre : rollbackReaches res n) :
    ∀ fuel k, 1 ≤ k → k ≤ n → n < k + fuel →
      ∃ ds, rollbackLoop res e k fuel =
        some ((rollback_failed_message e m, false), ds) := by
  intro fuel
  induction fuel with
  | zero =>
    intro k _ hkn hlt
    omega
  | succ fuel ih =>
    intro k hk1 hkn hlt
    rcases eq_or_lt_of_le hkn with rfl | hklt
    · refine ⟨[], ?_⟩
      simp only [rollbackLoop, herr]
      rw [if_pos ⟨hrl, hn⟩]
    · obtain ⟨mj, hmj, hcond⟩ := hpre k hk1 hklt
      have hstop : ¬ (looks_like_rate_limit mj = false ∧ ORDER_MAX_ATTEMPTS ≤ k) := by
        rcases hcond with h | h
        · simp [h]
        · omega
      obtain ⟨ds, hds⟩ := ih (k + 1) (by omega) (by omega) (by omega)
      refine ⟨backoff_delay_ms k (looks_like_rate_limit mj) :: ds, ?_⟩
      simp only [rollbackLoop, hmj, if_neg hstop, hds]

/-- C1 (amended): when the Extended leg is acknowledged and all 5
Pacifica attempts fail, the executor places the opposite-side,
reduce-only rollback order on Extended with the same backoff function
`backoff_delay_ms`; an acknowledged rollback yields a recoverable
error; a rollback failure aborts non-recoverably, with a message
naming the Extended exposure, only when it is not rate limited and the
attempt number has reached `ORDER_MAX_ATTEMPTS` - rate-limited
failures never count towards the cap, so the rollback is NOT limited
to 5 attempts. -/
theorem rollback_amended_behavior :
    (∀ (mk : String) (long : Bool) (n s : ℚ),
        (rollback_request mk long n s).side =
          OrderSide.opposite (extended_open_request mk long n s).side ∧
        (rollback_request mk long n s).reduce_only = true ∧
        (extended_open_request mk long n s).reduce_only = false) ∧
    (∀ (symbol : String) (long : Bool) (sz pr : ℚ) (em pm : String)
        (env : OpenEnv) (fuel a : Nat) (e : String),
        0 < sz →
        (legGo env.extRes 1 ORDER_MAX_ATTEMPTS).1 = Except.ok a →
        (legGo env.pacRes 1 ORDER_MAX_ATTEMPTS).1 = Except.error e →
        (∀ n, 1 ≤ n → n ≤ fuel → env.rbRes n = Att.ok →
          rollbackReaches env.rbRes n →
          open_delta_neutral_position symbol long sz pr em pm env fuel =
            some (OpenResult.fail (rollback_ok_message e) true)) ∧
        (∀ n m, 1 ≤ n → n ≤ fuel → env.rbRes n = Att.err m →
          looks_like_rate_limit m = false → ORDER_MAX_ATTEMPTS ≤ n →
          rollbackReaches env.rbRes n →
          open_delta_neutral_position symbol long sz pr em pm env fuel =
            some (OpenResult.fail (rollback_failed_message e m) false))) ∧
    (∀ e m : String, ∃ post : String,
        rollback_failed_message e m =
          "Pacifica order failed AND rollback failed. CRITICAL: Check Extended position manually! Original error: "
            ++ post) := by
  refine ⟨?_, ?_, ?_⟩
  · intro mk long n s
    cases long <;> exact ⟨rfl, rfl, rfl⟩
  · intro symbol long sz pr em pm env fuel a e hsz hext hpac
    constructor
    · intro n hn1 hnf hok hreach
      obtain ⟨ds, hds⟩ :=
        rollbackLoop_ack_aux env.rbRes e n hok hreach fuel 1 le_rfl hn1 (by omega)
      simp only [open_delta_neutral_position, if_neg (not_le.mpr hsz), hext, hpac, hds,
        Option.map_some']
    · intro n m hn1 hnf herr hrl hcap hreach
      obtain ⟨ds, hds⟩ :=
        rollbackLoop_giveup_aux env.rbRes e n m herr hrl hcap hreach fuel 1 le_rfl hn1
          (by omega)
      simp only [open_delta_neutral_position, if_neg (not_le.mpr hsz), hext, hpac, hds,
        Option.map_some']
  · intro e m
    refine ⟨e ++ (". Rollback error: " ++ m), ?_⟩
    simp [rollback_failed_message, String.append_assoc]

/-- C1 counterexample: with the Extended leg acknowledged and all 5
Pacifica attempts failed, the first `ORDER_MAX_ATTEMPTS = 5` rollback
attempts ALL fail (rate limited), yet the executor does not stop with
a non-recoverable error: it keeps retrying with the rate-limit backoff
`3000 * attempt` and returns the recoverable error after the sixth
attempt succeeds - refuting "at most 5 attempts". -/
theorem rollback_exceeds_max_attempts_cex :
    (cexEnv.rbRes 1 = Att.err "429" ∧ cexEnv.rbRes 2 = Att.err "429" ∧
     cexEnv.rbRes 3 = Att.err "429" ∧ cexEnv.rbRes 4 = Att.err "429" ∧
     cexEnv.rbRes 5 = Att.err "429") ∧
    open_delta_neutral_position "BTC" true 1 50000 "BTC-USD" "BTC" cexEnv 10 =
      some (OpenResult.fail (rollback_ok_message "connection reset") true) ∧
    rollbackLoop cexEnv.rbRes "connection reset" 1 10 =
      some ((rollback_ok_message "connection reset", true),
        [3000, 6000, 9000, 12000, 15000]) := by
  refine ⟨⟨rfl, rfl, rfl, rfl, rfl⟩, ?_, ?_⟩ <;> rfl

/-- Witness for the C1 amended theorem at a concrete environment. -/
theorem rollback_amended_behavior_witness :
    open_delta_neutral_position "ETH" false 2 2000 "ETH-USD" "ETH" wEnvC1 3 =
      some (OpenResult.fail (rollback_ok_message "pac down") true) := by
  refine (rollback_amended_behavior.2.1 "ETH" false 2 2000 "ETH-USD" "ETH" wEnvC1 3 1
    "pac down" (by norm_num) rfl rfl).1 1 le_rfl (by norm_num) rfl ?_
  intro j hj1 hj2
  omega

lemma pairwise_trivial {A : Type} (l : List A) : l.Pairwise fun _ _ => True := by
  induction l with
  | nil => exact List.Pairwise.nil
  | cons b t ih => exact List.Pairwise.cons (fun _ _ => trivial) ih

lemma orderedInsertDesc_mem {A : Type} (key : A → ℚ) (x y : A) (l : List A) :
    y ∈ orderedInsertDesc key x l ↔ y = x ∨ y ∈ l := by
  induction l with
  | nil => simp [orderedInsertDesc]
  | cons b t ih =>
    simp only [orderedInsertDesc]
    split_ifs with h
    · simp [List.mem_cons]
    · simp only [List.mem_cons, ih]
      tauto

lemma orderedInsertDesc_pairwise {A : Type} (key : A → ℚ) (s : A → A → Prop) (x : A) :
    ∀ l : List A, l.Pairwise (keyLex key s) → (∀ y ∈ l, s x y) →
      (orderedInsertDesc key x l).Pairwise (keyLex key s) := by
  intro l
  induction l with
  | nil =>
    intro _ _
    simp [orderedInsertDesc]
  | cons b t ih =>
    intro hp hs
    simp only [orderedInsertDesc]
    split_ifs with hkb
    · refine List.Pairwise.cons ?_ hp
      intro y hy
      have hky : key y ≤ key b := by
        rcases List.mem_cons.mp hy with rfl | hyt
        · exact le_rfl
        · rcases (List.pairwise_cons.mp hp).1 y hyt with h | ⟨he, _⟩
          · exact le_of_lt h
          · exact le_of_eq he.symm
      rcases lt_or_eq_of_le (le_trans hky hkb) with hlt | heq
      · exact Or.inl hlt
      · exact Or.inr ⟨heq.symm, hs y hy⟩
    · refine List.Pairwise.cons ?_
        (ih (List.pairwise_cons.mp hp).2 fun y hy => hs y (List.mem_cons_of_mem b hy))
      intro y hy
      rcases (orderedInsertDesc_mem key x y t).mp hy with rfl | hyt
      · exact Or.inl (not_le.mp hkb)
      · exact (List.pairwise_cons.mp hp).1 y hyt

lemma insertionSortDesc_mem {A : Type} (key : A → ℚ) (y : A) (l : List A) :
    y ∈ insertionSortDesc key l ↔ y ∈ l := by
  induction l with
  | nil => simp [insertionSortDesc]
  | cons b t ih =>
    simp only [insertionSortDesc, orderedInsertDesc_mem, ih, List.mem_cons]

lemma insertionSortDesc_pairwise {A : Type} (key : A → ℚ) (s : A → A → Prop) :
    ∀ l : List A, l.Pairwise s → (insertionSortDesc key l).Pairwise (keyLex key s) := by
  intro l
  induction l with
  | nil =>
    intro _
    simp [insertionSortDesc]
  | cons b t ih =>
    intro hp
    simp only [insertionSortDesc]
    refine orderedInsertDesc_pairwise key s b _ (ih (List.pairwise_cons.mp hp).2) ?_
    intro y hy
    exact (List.pairwise_cons.mp hp).1 y ((insertionSortDesc_mem key y t).mp hy)

/-- C2: for every scan, the passing list - produced by the stable
net-APR sort of `find_opportunities` applied to the candidate list,
which `fetch_volumes` had already put in total-volume-descending order
(dropping symbols in between only removes elements, hence the sublist
quantification) - is ordered by net APR descending with ties broken by
total volume descending; and the three scenario candidates come out as
S3, S2, S1. -/
theorem scan_ranking_sorted :
    (∀ cands mid : List OpportunityCandidate,
        List.Sublist mid (fetch_volumes_order cands) →
        (scan_passed (find_opportunities_order mid)).Pairwise rank_order) ∧
    scan_passed (find_opportunities_order (fetch_volumes_order [candS1, candS2, candS3])) =
      [candS3.opportunity, candS2.opportunity, candS1.opportunity] := by
  constructor
  · intro cands mid hsub
    have h1 :=
      insertionSortDesc_pairwise (fun c => c.opportunity.total_volume_24h)
        (fun _ _ => True) cands (pairwise_trivial cands)
    have h2 : mid.Pairwise
        (fun a b => b.opportunity.total_volume_24h ≤ a.opportunity.total_volume_24h) := by
      refine (h1.sublist hsub).imp ?_
      intro a b h
      rcases h with h | ⟨he, _⟩
      · exact le_of_lt h
      · exact le_of_eq he.symm
    have h3 :=
      insertionSortDesc_pairwise (fun c => c.opportunity.best_net_apr)
        (fun a b => b.opportunity.total_volume_24h ≤ a.opportunity.total_volume_24h) mid h2
    unfold scan_passed
    rw [List.pairwise_map]
    refine ((h3.sublist (List.filter_sublist _)).imp ?_)
    intro a b h
    simpa [keyLex, rank_order] using h
  · decide

/-- Witness for C2 at the three scenario candidates, the sublist
hypothesis discharged by reflexivity. -/
theorem scan_ranking_sorted_witness :
    (scan_passed (find_opportunities_order
      (fetch_volumes_order [candS1, candS2, candS3]))).Pairwise rank_order :=
  scan_ranking_sorted.1 [candS1, candS2, candS3] _ (List.Sublist.refl _)

/-- C3: the implemented sizing equals the specification formula
`floor((min(min(free_A, free_B) * 0.95, cap) / price) / max(lotA, lotB))
* max(lotA, lotB)`; the two scenario values 0.19 and 0 come out; and a
non-positive size makes the open fail with the insufficient-capital
error. -/
theorem calculate_position_size_correct :
    (∀ fa fb la lb p cap : ℚ,
        calculate_position_size fa fb la lb p cap = position_size_spec fa fb la lb p cap) ∧
    calculate_position_size 10000 10000 (1/1000) (1/100) 50000 10000 = 19/100 ∧
    calculate_position_size 100 100 (1/100) (1/100) 50000 1000 = 0 ∧
    (∀ s : ℚ, s ≤ 0 →
        open_size_check s = Except.error "Insufficient capital to open position") := by
  refine ⟨fun fa fb la lb p cap => rfl, by norm_num [calculate_position_size],
    by norm_num [calculate_position_size], ?_⟩
  intro s hs
  simp [open_size_check, hs]

/-- Witness for C3: the size guard fired at size 0. -/
theorem calculate_position_size_correct_witness :
    open_size_check 0 = Except.error "Insufficient capital to open position" :=
  calculate_position_size_correct.2.2.2 0 le_rfl

/-- C4: with a saved position, a fetch failure on either venue returns
that error and leaves the state unchanged; with both fetches
succeeding, an empty result on both legs clears `current_position`,
and otherwise the position keeps its symbol with exactly the live legs
set. -/
theorem reconcile_state_correct :
    ∀ (st : BotState) (p : DeltaNeutralPosition)
      (extRes : Except String (List Position))
      (pacRes : Except String (Option PacificaPosition)),
      st.current_position = some p →
      (∀ e, extRes = Except.error e → reconcile_state st extRes pacRes = (some e, st)) ∧
      (∀ l e, extRes = Except.ok l → pacRes = Except.error e →
        reconcile_state st extRes pacRes = (some e, st)) ∧
      (∀ l pac, extRes = Except.ok l → pacRes = Except.ok pac →
        ((l.find? fun q => q.market == p.symbol ++ "-USD") = none → pac = none →
          reconcile_state st extRes pacRes = (none, { st with current_position := none })) ∧
        (¬ ((l.find? fun q => q.market == p.symbol ++ "-USD") = none ∧ pac = none) →
          ∃ q, reconcile_state st extRes pacRes =
              (none, { st with current_position := some q }) ∧
            q.symbol = p.symbol ∧
            q.extended_position = (l.find? fun q2 => q2.market == p.symbol ++ "-USD") ∧
            q.pacifica_position = pac ∧
            q.opened_at = p.opened_at ∧
            q.target_notional_usd = p.target_notional_usd)) := by
  intro st p extRes pacRes hp
  refine ⟨?_, ?_, ?_⟩
  · intro e he
    subst he
    simp [reconcile_state, hp]
  · intro l e hl he
    subst hl
    subst he
    simp [reconcile_state, hp]
  · intro l pac hl hpac
    subst hl
    subst hpac
    constructor
    · intro hfind hnone
      subst hnone
      simp [reconcile_state, hp, hfind]
    · intro hne
      have hcond : ¬ (((l.find? fun q2 => q2.market == p.symbol ++ "-USD").isNone &&
          pac.isNone) = true) := by
        simp only [Bool.and_eq_true, Option.isNone_iff_eq_none]
        tauto
      refine ⟨{ p with
          extended_position := l.find? fun q2 => q2.market == p.symbol ++ "-USD"
          pacifica_position := pac }, ?_, rfl, rfl, rfl, rfl, rfl⟩
      simp only [reconcile_state, hp, if_neg hcond]

/-- Witness for C4: both fetches succeed and report nothing, the saved
two-legged state is cleared. -/
theorem reconcile_state_correct_witness :
    reconcile_state
        { current_position :=
            some { symbol := "BTC"
                   extended_position := none
                   pacifica_position := none
                   opened_at := 10
                   target_notional_usd := 100 }
          last_rotation_time := none
          total_rotations := 0 }
        (Except.ok []) (Except.ok none) =
      (none, { current_position := none
               last_rotation_time := none
               total_rotations := 0 }) :=
  ((reconcile_state_correct _ _ _ _ rfl).2.2 [] none rfl rfl).1 rfl rfl

/-- C5 (amended): after a successful executor open the persisted
`current_position` holds the returned position, whose `opened_at` is
the open-time clock (hence at most any later persist time) and whose
legs equal the snapshot lookups on the venues - each leg is `some` exactly
when the position list of the venue contains the traded market, and may
therefore be `none`. -/
theorem open_persist_amended :
    ∀ (symbol : String) (long : Bool) (sz pr : ℚ) (em pm : String) (env : OpenEnv)
      (fuel : Nat) (pos : DeltaNeutralPosition) (st : BotState) (t_save : Nat),
      open_delta_neutral_position symbol long sz pr em pm env fuel =
        some (OpenResult.ok pos) →
      env.now ≤ t_save →
      pos.opened_at = env.now ∧
      pos.opened_at ≤ t_save ∧
      (open_best_persist st pos t_save).current_position = some pos ∧
      (open_best_persist st pos t_save).last_rotation_time = some t_save ∧
      (open_best_persist st pos t_save).total_rotations = st.total_rotations + 1 ∧
      (∀ ext_list, env.extPositions = Except.ok ext_list →
        pos.extended_position = ext_list.find? fun p => p.market == em) ∧
      (∀ pac_list, env.pacPositions = Except.ok pac_list →
        pos.pacifica_position = pac_list.find? fun p => p.symbol == pm) := by
  intro symbol long sz pr em pm env fuel pos st t_save h hle
  simp only [open_delta_neutral_position] at h
  split_ifs at h with hsz
  · simp at h
  rcases hext : (legGo env.extRes 1 ORDER_MAX_ATTEMPTS).1 with e | a
  · rw [hext] at h
    simp at h
  rw [hext] at h
  dsimp only at h
  rcases hpac : (legGo env.pacRes 1 ORDER_MAX_ATTEMPTS).1 with e | b
  · rw [hpac] at h
    dsimp only at h
    rcases hrb : rollbackLoop env.rbRes e 1 fuel with _ | r
    · rw [hrb] at h
      simp at h
    · rw [hrb] at h
      simp at h
  rw [hpac] at h
  dsimp only at h
  rcases hexp : env.extPositions with e | ext_list
  · rw [hexp] at h
    simp at h
  rw [hexp] at h
  dsimp only at h
  rcases hpap : env.pacPositions with e | pac_list
  · rw [hpap] at h
    simp at h
  rw [hpap] at h
  dsimp only at h
  simp only [Option.some.injEq, OpenResult.ok.injEq] at h
  subst h
  refine ⟨rfl, hle, rfl, rfl, rfl, ?_, ?_⟩
  · intro l hl
    injection hl with h2
    subst h2
    rfl
  · intro l hl
    injection hl with h2
    subst h2
    rfl

/-- C5 counterexample: a fully successful open whose snapshot fetches
return empty lists yields `Ok` with BOTH legs `none`; persisting it
saves a position violating "both legs set to `Some`". -/
theorem open_success_legs_none_cex :
    open_delta_neutral_position "BTC" true 1 50000 "BTC-USD" "BTC" cexEnvC5 1 =
      some (OpenResult.ok
        { symbol := "BTC"
          extended_position := none
          pacifica_position := none
          opened_at := 100
          target_notional_usd := 1 * 50000 }) ∧
    (open_best_persist BotState.new
        { symbol := "BTC"
          extended_position := none
          pacifica_position := none
          opened_at := 100
          target_notional_usd := 1 * 50000 } 100).current_position =
      some { symbol := "BTC"
             extended_position := none
             pacifica_position := none
             opened_at := 100
             target_notional_usd := 1 * 50000 } ∧
    (({ symbol := "BTC"
        extended_position := none
        pacifica_position := none
        opened_at := 100
        target_notional_usd := 1 * 50000 } : DeltaNeutralPosition).extended_position = none ∧
     ({ symbol := "BTC"
        extended_position := none
        pacifica_position := none
        opened_at := 100
        target_notional_usd := 1 * 50000 } : DeltaNeutralPosition).pacifica_position = none) :=
  ⟨rfl, rfl, rfl, rfl⟩

/-- Witness for the C5 amended theorem: success with both snapshot
lists reporting the traded market, persisted at time 60. -/
theorem open_persist_amended_witness :
    (open_best_persist BotState.new posW 60).current_position = some posW ∧
    posW.opened_at ≤ 60 :=
  have h := open_persist_amended "SOL" true 2 10 "SOL-USD" "SOL" wEnvC5 1 posW
    BotState.new 60 rfl (by decide)
  ⟨h.2.2.1, h.2.1⟩

/-- C6 (amended): `load_from_file` falls back to the `.bak` sibling
exactly when the primary exists but fails to parse; an unparseable
backup propagates a parse error (no fresh initialization); a fresh
empty state is initialized and written exactly when the primary is
absent - even if a valid backup exists - or when the primary is
corrupt and no backup file exists. -/
theorem load_from_file_amended :
    (∀ (s : BotState) (b : FileState),
        BotState.load_from_file (FileState.valid s) b = Except.ok (s, false)) ∧
    (∀ s : BotState,
        BotState.load_from_file FileState.corrupt (FileState.valid s) =
          Except.ok (s, false)) ∧
    BotState.load_from_file FileState.corrupt FileState.corrupt =
      Except.error "failed to parse backup state file" ∧
    BotState.load_from_file FileState.corrupt FileState.absent =
      Except.ok (BotState.new, true) ∧
    (∀ b : FileState,
        BotState.load_from_file FileState.absent b = Except.ok (BotState.new, true)) :=
  ⟨fun _ _ => rfl, fun _ => rfl, rfl, rfl, fun _ => rfl⟩

/-- C6 counterexample: with the primary absent and a VALID backup
(7 rotations), `load_from_file` initializes and writes a fresh empty
state instead of returning the backup; and with both present but
corrupt it returns a parse error instead of initializing. -/
theorem load_fresh_despite_valid_backup_cex :
    BotState.load_from_file FileState.absent
        (FileState.valid { current_position := none
                           last_rotation_time := none
                           total_rotations := 7 }) =
      Except.ok (BotState.new, true) ∧
    BotState.new ≠ { current_position := none
                     last_rotation_time := none
                     total_rotations := 7 } ∧
    BotState.load_from_file FileState.corrupt FileState.corrupt =
      Except.error "failed to parse backup state file" :=
  ⟨rfl, by decide, rfl⟩

/-- C7: with a saved position whose `opened_at` does not exceed `now`,
`should_rotate` answers `true` exactly when the elapsed seconds reach
`hold_time_hours` hours (the integer division by 3600 is equivalent to
the multiplied comparison). -/
theorem should_rotate_iff :
    ∀ (st : BotState) (pos : DeltaNeutralPosition) (now hold_time_hours : Nat),
      st.current_position = some pos → pos.opened_at ≤ now →
      (st.should_rotate now hold_time_hours = some true ↔
        hold_time_hours * 3600 ≤ now - pos.opened_at) := by
  intro st pos now hold_time_hours hp hle
  simp only [BotState.should_rotate, hp, u64_checked_sub, if_pos hle, Option.some.injEq,
    decide_eq_true_eq]
  exact Nat.le_div_iff_mul_le (by norm_num)

/-- Witness for C7: the scenario `opened_at = now - 48h - 1s`,
`hold_time_hours = 48` rotates. -/
theorem should_rotate_iff_witness :
    ({ current_position :=
         some { symbol := "BTC"
                extended_position := none
                pacifica_position := none
                opened_at := 0
                target_notional_usd := 0 }
       last_rotation_time := none
       total_rotations := 0 } : BotState).should_rotate 172801 48 = some true :=
  (should_rotate_iff _ _ 172801 48 rfl (by decide)).mpr (by decide)

/-- C9: `passes_filters` accepts exactly the opportunities that
`check_filters` classifies as `Passed` - the two filter
implementations agree. -/
theorem passes_filters_iff_check_passed :
    ∀ (o : Opportunity) (c : FilterConfig),
      o.passes_filters c = true ↔ o.check_filters c = FilterResult.Passed := by
  intro o c
  simp only [Opportunity.passes_filters, Opportunity.check_filters, Bool.and_eq_true,
    decide_eq_true_eq, ge_iff_le]
  constructor
  · rintro ⟨⟨⟨⟨he, hpa⟩, hc⟩, hv⟩, ha⟩
    rw [if_neg (not_lt.mpr hv), if_neg (not_or.mpr ⟨not_lt.mpr he, not_lt.mpr hpa⟩),
      if_neg (not_lt.mpr hc), if_neg (not_lt.mpr ha)]
  · intro h
    split_ifs at h with h1 h2 h3 h4 <;> simp only [reduceCtorEq] at h
    push_neg at h2
    exact ⟨⟨⟨⟨h2.1, h2.2⟩, not_lt.mp h3⟩, not_lt.mp h1⟩, not_lt.mp h4⟩

/-- C10: `should_rotate` and `hours_until_rotation` compute
`now - opened_at` on `u64`; under the precondition `opened_at ≤ now`
both are defined (and compute the intended values), while a saved
position with `opened_at` in the future makes the subtraction
underflow (`none`, a Rust panic under overflow checks) instead of
returning `false`, respectively a zero remaining time. -/
theorem rotation_underflow_totality :
    ∀ (st : BotState) (pos : DeltaNeutralPosition) (now hold_time_hours : Nat),
      st.current_position = some pos →
      ((pos.opened_at ≤ now →
          st.should_rotate now hold_time_hours =
            some (decide (hold_time_hours ≤ (now - pos.opened_at) / 3600)) ∧
          st.hours_until_rotation now hold_time_hours =
            some (some (max ((hold_time_hours : ℚ) -
              ((now - pos.opened_at : Nat) : ℚ) / 3600) 0))) ∧
       (now < pos.opened_at →
          st.should_rotate now hold_time_hours = none ∧
          st.hours_until_rotation now hold_time_hours = none)) := by
  intro st pos now hold_time_hours hp
  constructor
  · intro hle
    constructor
    · simp [BotState.should_rotate, hp, u64_checked_sub, if_pos hle]
    · simp [BotState.hours_until_rotation, hp, u64_checked_sub, if_pos hle]
  · intro hlt
    have hn : ¬ pos.opened_at ≤ now := not_le.mpr hlt
    constructor
    · simp [BotState.should_rotate, hp, u64_checked_sub, if_neg hn]
    · simp [BotState.hours_until_rotation, hp, u64_checked_sub, if_neg hn]

/-- Witness for C10: a position opened one second in the future makes
both functions underflow rather than answer. -/
theorem rotation_underflow_totality_witness :
    ({ current_position :=
         some { symbol := "BTC"
                extended_position := none
                pacifica_position := none
                opened_at := 11
                target_notional_usd := 0 }
       last_rotation_time := none
       total_rotations := 0 } : BotState).should_rotate 10 48 = none ∧
    ({ current_position :=
         some { symbol := "BTC"
                extended_position := none
                pacifica_position := none
                opened_at := 11
                target_notional_usd := 0 }
       last_rotation_time := none
       total_rotations := 0 } : BotState).hours_until_rotation 10 48 = none :=
  (rotation_underflow_totality _ _ 10 48 rfl).2 (by decide)

/-- C8 (amended): with both orderbook tops present and non-zero mids,
`fetch_opportunity_data` computes the Pacifica APR from the fetched
raw rate exactly as the claim states - `rate_percentage` is
`raw * 100` (pacifica/types.rs:420) and is annualized by `* 24 * 365`
(opportunity.rs:703), giving `raw * 24 * 365 * 100` - but the Extended
APR is annualized by `* 3 * 365` (opportunity.rs:698), giving
`raw * 3 * 365 * 100` under the same percentage convention, an 8 times
smaller scaling than claimed; a venue whose funding fetch failed gets
APR 0. -/
theorem funding_apr_amended :
    ∀ (symbol : String) (vd : VolumeData) (eb pb : BookTop) (rawE rawP : ℚ),
      (eb.bid + eb.ask) / 2 ≠ 0 → (pb.bid + pb.ask) / 2 ≠ 0 →
      (∃ opp, fetch_opportunity_data symbol vd (some eb) (some pb)
          (some (extended_rate_pct rawE)) (some (pacifica_rate_pct rawP)) = some opp ∧
        opp.pacifica_funding_rate_apr = rawP * 24 * 365 * 100 ∧
        opp.extended_funding_rate_apr = rawE * 3 * 365 * 100) ∧
      (∃ opp0, fetch_opportunity_data symbol vd (some eb) (some pb) none none =
          some opp0 ∧
        opp0.extended_funding_rate_apr = 0 ∧
        opp0.pacifica_funding_rate_apr = 0) := by
  intro symbol vd eb pb rawE rawP hE hP
  have hne : ¬ ((eb.bid + eb.ask) / 2 = 0 ∨ (pb.bid + pb.ask) / 2 = 0) :=
    not_or.mpr ⟨hE, hP⟩
  constructor
  · unfold fetch_opportunity_data
    dsimp only
    rw [if_neg hne]
    refine ⟨_, rfl, ?_, ?_⟩
    · show pacifica_rate_pct rawP * 24 * 365 = rawP * 24 * 365 * 100
      unfold pacifica_rate_pct
      ring
    · show extended_rate_pct rawE * 3 * 365 = rawE * 3 * 365 * 100
      unfold extended_rate_pct
      ring
  · unfold fetch_opportunity_data
    dsimp only
    rw [if_neg hne]
    exact ⟨_, rfl, rfl, rfl⟩

/-- C8 counterexample: at a fetched raw rate of 1 on both venues
(books 1/1, non-zero mids), the Pacifica APR is
`1 * 24 * 365 * 100 = 876000`, exactly the claimed formula, but the
Extended APR is `1 * 100 * 3 * 365 = 109500`, not
`1 * 24 * 365 * 100` - refuting the claim for the Extended venue. -/
theorem funding_apr_extended_cex :
    ∃ opp, fetch_opportunity_data "X"
        { symbol := "X", extended_volume := 0, pacifica_volume := 0, total_volume := 0 }
        (some { bid := 1, ask := 1 }) (some { bid := 1, ask := 1 })
        (some (extended_rate_pct 1)) (some (pacifica_rate_pct 1)) = some opp ∧
      opp.pacifica_funding_rate_apr = 1 * 24 * 365 * 100 ∧
      opp.extended_funding_rate_apr = 1 * 100 * 3 * 365 ∧
      opp.extended_funding_rate_apr ≠ 1 * 24 * 365 * 100 := by
  have hne : ¬ (((1 : ℚ) + 1) / 2 = 0 ∨ ((1 : ℚ) + 1) / 2 = 0) := by
    norm_num
  unfold fetch_opportunity_data
  dsimp only
  rw [if_neg hne]
  refine ⟨_, rfl, ?_, ?_, ?_⟩
  · show pacifica_rate_pct 1 * 24 * 365 = 1 * 24 * 365 * 100
    norm_num [pacifica_rate_pct]
  · show extended_rate_pct 1 * 3 * 365 = 1 * 100 * 3 * 365
    norm_num [extended_rate_pct]
  · show extended_rate_pct 1 * 3 * 365 ≠ 1 * 24 * 365 * 100
    norm_num [extended_rate_pct]

/-- Witness for the C8 amended theorem at concrete books and raw
rates. -/
theorem funding_apr_amended_witness :
    ∃ opp, fetch_opportunity_data "Y"
        { symbol := "Y", extended_volume := 0, pacifica_volume := 0, total_volume := 0 }
        (some { bid := 2, ask := 2 }) (some { bid := 2, ask := 2 })
        (some (extended_rate_pct 1)) (some (pacifica_rate_pct 1)) = some opp ∧
      opp.pacifica_funding_rate_apr = 1 * 24 * 365 * 100 ∧
      opp.extended_funding_rate_apr = 1 * 3 * 365 * 100 :=
  (funding_apr_amended "Y"
    { symbol := "Y", extended_volume := 0, pacifica_volume := 0, total_volume := 0 }
    { bid := 2, ask := 2 } { bid := 2, ask := 2 } 1 1
    (by norm_num) (by norm_num)).1
